/-
Verification of the eBay listing polling and lifecycle-update engine
(sellboy bot, latest revision of the engine file).

The pure logic of the engine is embedded shallowly:
- timestamps are `Int` milliseconds; JavaScript `Date.now()` becomes an
  explicit `now : Int` argument;
- JavaScript `null`/`undefined` becomes `Option`; the JS falsiness test
  `!x` on a number-or-null value is `none` or `some 0`;
- the network fetch is a parameter (`Option Snapshot`: `none` models a
  thrown fetch error, caught by the engine);
- the messaging gateway outcomes (channel found, embed message found)
  are Boolean parameters; emitted side effects are returned as data.
-/
import Mathlib

/-- A normalized listing snapshot as produced by the Data Source
(`scrapeEbayListing` / `fetchEbayListingViaAPI` return shape). -/
structure Snapshot where
  title : String
  currentPrice : String
  bidCount : Nat
  endTime : Option Int
  imageUrl : Option String
  description : String
  views : Nat
  watchers : Nat
  status : String
  source : String
  listingType : String
  buyItNowPrice : Option String
  deriving Repr, DecidableEq

/-- A stored listing record (one entry of `db.ebayListings`). -/
structure Listing where
  url : String
  ownerId : String
  title : String
  currentPrice : String
  bidCount : Nat
  endTime : Option Int
  imageUrl : Option String
  description : String
  views : Nat
  watchers : Nat
  status : String
  source : String
  listingType : String
  buyItNowPrice : Option String
  lastChecked : Option Int
  createdAt : Int
  deriving Repr, DecidableEq

/-- The function `getUpdateIntervalMs(endTime)` from the engine file.  `Date.now()` is
the explicit `now` argument.  JS `!endTime` is true for `null` and for the
number `0`, so both map to the 30-minute branch. -/
def getUpdateIntervalMs (endTime : Option Int) (now : Int) : Option Int :=
  match endTime with
  | none => some (30 * 60 * 1000)
  | some e =>
    if e = 0 then some (30 * 60 * 1000)
    else
      let timeLeft := e - now
      if timeLeft ≤ 0 then none
      else if timeLeft < 60 * 60 * 1000 then some (2 * 60 * 1000)
      else if timeLeft < 8 * 60 * 60 * 1000 then some (5 * 60 * 1000)
      else if timeLeft < 3 * 24 * 60 * 60 * 1000 then some (15 * 60 * 1000)
      else some (30 * 60 * 1000)

/-- Side effects emitted through the messaging gateway during one
`updateEbayListing` call, returned as data. -/
structure Effects where
  embedRefreshed : Bool
  notifications : List String
  renameAttempted : Bool
  deriving Repr, DecidableEq

def Effects.empty : Effects :=
  { embedRefreshed := false, notifications := [], renameAttempted := false }

/-- The field-assignment block of `updateEbayListing` (the merge): the
snapshot overwrites `title`, `currentPrice`, `bidCount`, `endTime`,
`imageUrl`, `description`, `views`, `watchers`, `status`, `source`, and
`lastChecked` is set to `Date.now()` at fetch completion.  The code assigns
no other field (`url`, `ownerId`, `createdAt`, `listingType`,
`buyItNowPrice` keep their stored values). -/
def mergeSnapshot (listing : Listing) (newData : Snapshot) (completionTime : Int) : Listing :=
  { listing with
    title := newData.title
    currentPrice := newData.currentPrice
    bidCount := newData.bidCount
    endTime := newData.endTime
    imageUrl := newData.imageUrl
    description := newData.description
    views := newData.views
    watchers := newData.watchers
    status := newData.status
    source := newData.source
    lastChecked := some completionTime }

/-- The ended-case message literal of `updateEbayListing`. -/
def endedNotice (newData : Snapshot) : String :=
  "🔔 **Auction Ended!** Ready to ship.\nFinal Price: " ++ newData.currentPrice ++
    "\nTotal Bids: " ++ toString newData.bidCount

/-- The updated-case message literal of `updateEbayListing`. -/
def updatedNotice (oldPrice : String) (oldBidCount : Nat) (newData : Snapshot) : String :=
  "📢 **Bid Update!**\nPrice: " ++ oldPrice ++ " → " ++ newData.currentPrice ++
    "\nBids: " ++ toString oldBidCount ++ " → " ++ toString newData.bidCount

/-- Result of one `updateEbayListing(channelId, listing)` call:
the listing value stored by its `saveDb` (if any), whether the save
happened (the success path), and the gateway side effects. -/
structure UpdateResult where
  listing : Listing
  saved : Bool
  effects : Effects
  deriving Repr, DecidableEq

/-- The function `updateEbayListing` from the engine file.  `fetchResult = none` models
`getEbayListing` throwing: the `catch` returns `false` and nothing was
merged, saved or sent.  On success the merge and `saveDb` happen first,
then change detection and gateway effects.  `channelFound` models
`guild.channels.fetch(channelId).catch(() => null)` being non-null;
`embedMsgFound` models `messages.find(...)` locating the embed message. -/
def updateEbayListing (listing : Listing) (fetchResult : Option Snapshot)
    (completionTime : Int) (channelFound : Bool) (embedMsgFound : Bool) : UpdateResult :=
  match fetchResult with
  | none => { listing := listing, saved := false, effects := Effects.empty }
  | some newData =>
    let oldPrice := listing.currentPrice
    let oldBidCount := listing.bidCount
    let oldStatus := listing.status
    let merged := mergeSnapshot listing newData completionTime
    let priceChanged := oldPrice != newData.currentPrice
    let bidCountChanged := oldBidCount != newData.bidCount
    let justEnded := oldStatus == "active" && newData.status == "ended"
    let effects :=
      if (priceChanged || bidCountChanged || justEnded) && channelFound then
        let note :=
          if justEnded then endedNotice newData
          else if priceChanged || bidCountChanged then updatedNotice oldPrice oldBidCount newData
          else ""
        { embedRefreshed := embedMsgFound
          notifications := if note != "" then [note] else []
          renameAttempted := justEnded }
      else Effects.empty
    { listing := merged, saved := true, effects := effects }

/-- The per-record skip list of the tick loop
(`["closed", "ended", "sold", "shipped"].includes(listing.status)`). -/
def terminalStatuses : List String := ["closed", "ended", "sold", "shipped"]

/-- Outcome of the tick loop body for one record: the value persisted for
it after the iteration (unchanged unless `updateEbayListing` saved), how
many Data Source fetches were attempted, and the emitted effects. -/
structure TickRecordResult where
  stored : Listing
  fetchCount : Nat
  effects : Effects
  deriving Repr, DecidableEq

/-- One iteration of the `for` body of a `startEbayUpdateLoop` tick for a
single record.  When the Interval Policy returns `null` the loop mutates
the in-memory `listing.status` to `"ended"` *before* calling
`updateEbayListing`; that in-memory mutation only reaches the store
through the `saveDb` call inside `updateEbayListing` on its success path, so on a
failed fetch the persisted record is unchanged. -/
def processListing (now : Int) (fetchResult : Option Snapshot)
    (channelFound : Bool) (embedMsgFound : Bool) (listing : Listing) : TickRecordResult :=
  if terminalStatuses.contains listing.status then
    { stored := listing, fetchCount := 0, effects := Effects.empty }
  else
    match getUpdateIntervalMs listing.endTime now with
    | none =>
      let preset := { listing with status := "ended" }
      let r := updateEbayListing preset fetchResult now channelFound embedMsgFound
      { stored := if r.saved then r.listing else listing
        fetchCount := 1
        effects := r.effects }
    | some interval =>
      if now - (listing.lastChecked.getD 0) ≥ interval then
        let r := updateEbayListing listing fetchResult now channelFound embedMsgFound
        { stored := if r.saved then r.listing else listing
          fetchCount := 1
          effects := r.effects }
      else
        { stored := listing, fetchCount := 0, effects := Effects.empty }

/-- One full tick of `startEbayUpdateLoop` over the persisted store
(`Object.entries(db.ebayListings)` as an association list).  The fetch
outcome is a function of the listing URL; gateway outcomes are functions
of the channel id.  The `updateEbayListing` call for each record re-loads the
store and saves only its own key, so records are processed independently. -/
def tick (now : Int) (fetch : String → Option Snapshot)
    (channelFound embedMsgFound : String → Bool)
    (store : List (String × Listing)) : List (String × TickRecordResult) :=
  store.map (fun e =>
    (e.1, processListing now (fetch e.2.url) (channelFound e.1) (embedMsgFound e.1) e.2))

/-- The persisted store after a tick. -/
def tickStore (now : Int) (fetch : String → Option Snapshot)
    (channelFound embedMsgFound : String → Bool)
    (store : List (String × Listing)) : List (String × Listing) :=
  (tick now fetch channelFound embedMsgFound store).map (fun e => (e.1, e.2.stored))

/-- The raw values `scrapeEbayListing` extracts from the fetched page
before assembling its snapshot.  The DOM/selector heuristics themselves
are outside the engine; only the assembly logic below is embedded. -/
structure ScrapeExtract where
  title : String
  currentPrice : String
  bidCount : Nat
  endTime : Option Int
  imageUrl : Option String
  description : String
  views : Nat
  watchers : Nat
  isEnded : Bool
  hasAuctionIndicators : Bool
  hasBinIndicators : Bool
  binPriceText : String
  deriving Repr, DecidableEq

/-- The snapshot-assembly tail of `scrapeEbayListing`: listing-type
classification from the auction/BIN indicators, BIN price only when both
indicator groups are present and the extracted text is non-empty, status
`"ended"` exactly when the page signals closure, and `source = "scrape"`. -/
def scrapeEbayListing (e : ScrapeExtract) : Snapshot :=
  let hasBoth := e.hasAuctionIndicators && e.hasBinIndicators
  { title := e.title
    currentPrice := e.currentPrice
    bidCount := e.bidCount
    endTime := e.endTime
    imageUrl := e.imageUrl
    description := e.description
    views := e.views
    watchers := e.watchers
    status := if e.isEnded then "ended" else "active"
    source := "scrape"
    listingType :=
      if hasBoth then "auction_with_bin"
      else if e.hasAuctionIndicators then "auction"
      else "buy_it_now"
    buyItNowPrice := if hasBoth && e.binPriceText != "" then some e.binPriceText else none }

/-- The decoded Browse-API item fields `fetchEbayListingViaAPI` reads
(prices as (currency, value) string pairs; `itemEndDate` already parsed
to epoch milliseconds). -/
structure ApiItem where
  title : Option String
  price : Option (String × String)
  bidCount : Option Nat
  itemEndDate : Option Int
  imageUrl : Option String
  shortDescription : Option String
  description : Option String
  viewCount : Option Nat
  watchCount : Option Nat
  buyingOptions : List String
  buyItNowPrice : Option (String × String)
  deriving Repr, DecidableEq

/-- The response-parsing tail of `fetchEbayListingViaAPI`: listing type
from `buyingOptions`, status `"ended"` when `itemEndDate` exists and is
before now, defaults for absent fields, and `source = "api"`. -/
def fetchEbayListingViaAPI (item : ApiItem) (now : Int) : Snapshot :=
  let isAuction := item.buyingOptions.contains "AUCTION"
  let isFixedPrice := item.buyingOptions.contains "FIXED_PRICE"
  { title := item.title.getD "Unknown Item"
    currentPrice := (item.price.map (fun p => p.1 ++ " $" ++ p.2)).getD "N/A"
    bidCount := item.bidCount.getD 0
    endTime := item.itemEndDate
    imageUrl := item.imageUrl
    description :=
      ((item.shortDescription.orElse (fun _ => item.description.map (fun d => d.take 500))).getD "")
    views := item.viewCount.getD 0
    watchers := item.watchCount.getD 0
    status :=
      match item.itemEndDate with
      | some d => if d < now then "ended" else "active"
      | none => "active"
    source := "api"
    listingType :=
      if isAuction && isFixedPrice then "auction_with_bin"
      else if isAuction then "auction"
      else "buy_it_now"
    buyItNowPrice :=
      if isAuction && isFixedPrice then item.buyItNowPrice.map (fun p => p.1 ++ " $" ++ p.2)
      else none }

/-- The function `getEbayListing(url)`: when the API is enabled, try the API strategy
first and on any thrown error fall through to the scrape strategy; when
disabled, go straight to the scrape strategy.  A strategy outcome is
`Except.error msg` when that strategy throws.  If the scrape strategy also
throws, its error propagates (the last underlying cause). -/
def getEbayListing (apiEnabled : Bool) (apiOutcome scrapeOutcome : Except String Snapshot) :
    Except String Snapshot :=
  if apiEnabled then
    match apiOutcome with
    | Except.ok listing => Except.ok listing
    | Except.error _ => scrapeOutcome
  else scrapeOutcome

/-- Iterate the tick-loop body for one record over a sequence of ticks,
each described by (now, fetch outcome, channel found, embed found);
accumulates the total number of fetches and all posted notifications. -/
def runTicks : List (Int × Option Snapshot × Bool × Bool) → Listing → Listing × Nat × List String
  | [], listing => (listing, 0, [])
  | step :: steps, listing =>
    let r := processListing step.1 step.2.1 step.2.2.1 step.2.2.2 listing
    let rest := runTicks steps r.stored
    (rest.1, r.fetchCount + rest.2.1, r.effects.notifications ++ rest.2.2)

/-- The Interval Policy as the amended table of the spec states it: a missing
deadline — and, since the falsiness test in the code also catches it, the
deadline `0` — gives 30 minutes; a remaining duration `r = endTime − now`
falls in `[3d,∞) → 30 min`, `[8h,3d) → 15 min`, `[1h,8h) → 5 min`,
`(0,1h) → 2 min`, and `r ≤ 0` (deadline at or before now) gives `null`. -/
def nextIntervalAmended (endTime : Option Int) (now : Int) : Option Int :=
  match endTime with
  | none => some (30 * 60 * 1000)
  | some e =>
    if e = 0 then some (30 * 60 * 1000)
    else if 3 * 24 * 60 * 60 * 1000 ≤ e - now then some (30 * 60 * 1000)
    else if 8 * 60 * 60 * 1000 ≤ e - now then some (15 * 60 * 1000)
    else if 60 * 60 * 1000 ≤ e - now then some (5 * 60 * 1000)
    else if 0 < e - now then some (2 * 60 * 1000)
    else none

/-- A tracked record still marked `active` whose deadline (1 ms after the
epoch) is long past. -/
def sampleListing : Listing :=
  { url := "https://www.ebay.com/itm/123456"
    ownerId := "owner-1"
    title := "Sample Item"
    currentPrice := "$10.00"
    bidCount := 2
    endTime := some 1
    imageUrl := none
    description := ""
    views := 0
    watchers := 0
    status := "active"
    source := "scrape"
    listingType := "auction"
    buyItNowPrice := none
    lastChecked := some 0
    createdAt := 0 }

/-- The same record after an external mark-sold action. -/
def sampleSoldListing : Listing := { sampleListing with status := "sold" }

/-- A fetched snapshot whose own status is still `"active"` (the page did
not signal closure) with a changed price and bid count. -/
def sampleStaleSnapshot : Snapshot :=
  { title := "Sample Item"
    currentPrice := "$12.00"
    bidCount := 3
    endTime := some 1
    imageUrl := none
    description := ""
    views := 5
    watchers := 1
    status := "active"
    source := "scrape"
    listingType := "auction"
    buyItNowPrice := none }

/-- A fetched snapshot identical to `sampleListing` in price, bid count
and status. -/
def sampleUnchangedSnapshot : Snapshot :=
  { title := "Sample Item"
    currentPrice := "$10.00"
    bidCount := 2
    endTime := some 1
    imageUrl := none
    description := ""
    views := 0
    watchers := 0
    status := "active"
    source := "scrape"
    listingType := "auction"
    buyItNowPrice := none }

/-- A fetched snapshot reporting a Buy-It-Now option added to the auction. -/
def sampleBinSnapshot : Snapshot :=
  { sampleStaleSnapshot with
    listingType := "auction_with_bin"
    buyItNowPrice := some "$50.00" }

/-- A freshly created record that has never been checked (`lastChecked`
absent) and has no known deadline. -/
def sampleNeverCheckedListing : Listing :=
  { sampleListing with lastChecked := none, endTime := none }

/-- An active record with unknown deadline, due at any realistic clock. -/
def sampleDueListing : Listing :=
  { sampleListing with url := "https://www.ebay.com/itm/654321", endTime := none }

/-- A per-URL fetch outcome: the fetch succeeds for the URL of
`sampleDueListing` and throws for every other URL. -/
def sampleFetch : String → Option Snapshot := fun u =>
  if u == "https://www.ebay.com/itm/654321" then some sampleStaleSnapshot else none

/-- C1: at a record with `status = "active"` and `endTime` long past, the
tick takes the null-interval branch and fetches once, but because the loop
forces `status = "ended"` *before* `updateEbayListing` and the merge then
assigns `listing.status = newData.status`, a snapshot still reporting
`"active"` leaves the stored status `"active"` — not `"ended"` as the
claim (and the source comment `do one final update`) state. -/
theorem deadlinePassedTick_stores_snapshot_status :
    (processListing 1700000000000 (some sampleStaleSnapshot) true true sampleListing).fetchCount
        = 1 ∧
      (processListing 1700000000000 (some sampleStaleSnapshot) true true
          sampleListing).stored.status = "active" := by
  decide

/-- C2: the ended transition does not fire exactly once.  Starting from an
`active` record with `endTime` in the past, a first tick fetches once but
stores the snapshot status `"active"`, so a subsequent tick fetches the
same record again (the claim requires zero fetches there). -/
theorem endedTransition_repeats_on_stale_snapshot :
    (processListing 1700000000000 (some sampleStaleSnapshot) true true sampleListing).fetchCount
        = 1 ∧
      (processListing 1700000000000 (some sampleStaleSnapshot) true true
          sampleListing).stored.status ≠ "ended" ∧
      (processListing 1700000060000 (some sampleStaleSnapshot) true true
          (processListing 1700000000000 (some sampleStaleSnapshot) true true
            sampleListing).stored).fetchCount = 1 := by
  decide

/-- C4 counterexample: the half-open bracket `[0,1h) → 2 min` of the claim
fails at remaining time `r = 0` (the `timeLeft <= 0` test in the code returns
`null` there), and `endTime = 0`, although in the past, returns the
30-minute unknown-deadline interval rather than `null` (JS `!endTime` is
true for `0`). -/
theorem getUpdateIntervalMs_boundary_counterexample :
    getUpdateIntervalMs (some 1700000000000) 1700000000000 = none ∧
      getUpdateIntervalMs (some 0) 1700000000000 = some (30 * 60 * 1000) := by
  decide

/-- C4 amended: the Interval Policy agrees everywhere with the corrected
table `nextIntervalAmended`: `endTime` null or `0` → 30 min; otherwise
with `r = endTime − now`, `r ≤ 0` → null, `r ∈ (0,1h)` → 2 min,
`r ∈ [1h,8h)` → 5 min, `r ∈ [8h,3d)` → 15 min, `r ∈ [3d,∞)` → 30 min. -/
theorem getUpdateIntervalMs_eq_amended_policy (endTime : Option Int) (now : Int) :
    getUpdateIntervalMs endTime now = nextIntervalAmended endTime now := by
  rcases endTime with _ | e
  · rfl
  · by_cases h0 : e = 0
    · simp [getUpdateIntervalMs, nextIntervalAmended, h0]
    · simp only [getUpdateIntervalMs, nextIntervalAmended, if_neg h0]
      split_ifs <;> first | rfl | omega

/-- C9: the Data Source call with the API strategy enabled: if the API
outcome is an error and the scrape strategy succeeds, the call succeeds
with the scrape-built snapshot, whose `source` is `"scrape"`; if both
strategies fail, the call fails with the scrape error (the last cause);
if the API strategy succeeds, the call returns the API-built snapshot,
whose `source` is `"api"`, and its result does not depend on the scrape
outcome (the scrape strategy is never consulted). -/
theorem getEbayListing_strategy_fallback (e1 e2 : String) (ex : ScrapeExtract)
    (item : ApiItem) (now : Int) (s1 s2 : Except String Snapshot) :
    (getEbayListing true (Except.error e1) (Except.ok (scrapeEbayListing ex)) =
          Except.ok (scrapeEbayListing ex) ∧
        (scrapeEbayListing ex).source = "scrape") ∧
      getEbayListing true (Except.error e1) (Except.error e2) = Except.error e2 ∧
      (getEbayListing true (Except.ok (fetchEbayListingViaAPI item now)) s1 =
            Except.ok (fetchEbayListingViaAPI item now) ∧
          (fetchEbayListingViaAPI item now).source = "api" ∧
          getEbayListing true (Except.ok (fetchEbayListingViaAPI item now)) s1 =
            getEbayListing true (Except.ok (fetchEbayListingViaAPI item now)) s2) :=
  ⟨⟨rfl, rfl⟩, rfl, rfl, rfl, rfl⟩

/-- A record whose status is on the skip list of the tick loop is returned by
the loop body untouched, with no fetch and no side effects. -/
lemma processListing_skipList (now : Int) (fr : Option Snapshot) (cf ef : Bool) (l : Listing)
    (h : terminalStatuses.contains l.status = true) :
    processListing now fr cf ef l = ⟨l, 0, Effects.empty⟩ := by
  simp only [processListing, h, ite_true]

/-- C3: a record whose status is `closed`, `sold` or `shipped` (and
likewise `ended`) is skipped entirely by every tick: across an arbitrary
sequence of ticks it is never fetched, no field of it changes, and no
notification is posted for it. -/
theorem terminal_records_never_polled (l : Listing)
    (steps : List (Int × Option Snapshot × Bool × Bool))
    (h : l.status = "closed" ∨ l.status = "sold" ∨ l.status = "shipped" ∨ l.status = "ended") :
    runTicks steps l = (l, 0, []) := by
  have hc : terminalStatuses.contains l.status = true := by
    rcases h with h | h | h | h <;> simp [terminalStatuses, h]
  induction steps with
  | nil => rfl
  | cons st steps ih =>
    simp only [runTicks, processListing_skipList _ _ _ _ _ hc, ih]
    rfl

/-- Witness for C3 at a concrete sold record over two concrete ticks. -/
theorem terminal_records_never_polled_witness :
    sampleSoldListing.status = "sold" ∧
      runTicks [(1700000000000, some sampleStaleSnapshot, true, true),
          (1700000060000, none, true, true)] sampleSoldListing =
        (sampleSoldListing, 0, []) :=
  ⟨rfl,
    terminal_records_never_polled sampleSoldListing
      [(1700000000000, some sampleStaleSnapshot, true, true), (1700000060000, none, true, true)]
      (Or.inr (Or.inl rfl))⟩

/-- C5 counterexample: a completed (successful, saved) fetch whose
snapshot carries the same price, bid count and status as the stored
record refreshes nothing: the embed edit sits inside the
`priceChanged || bidCountChanged || justEnded` branch, so it is not
unconditional as the claim states. -/
theorem embed_refresh_not_unconditional :
    (updateEbayListing sampleListing (some sampleUnchangedSnapshot) 1700000000000 true
          true).saved = true ∧
      (updateEbayListing sampleListing (some sampleUnchangedSnapshot) 1700000000000 true
          true).effects.embedRefreshed = false := by
  decide

/-- C5 amended: on a completed fetch the embed message is refreshed
exactly when a notable change occurred (`priceChanged`, `bidCountChanged`
or `justEnded`) and the channel and its embed message were found; in
particular, with identical old/new price, bid count and status no embed
refresh (and no notification) happens. -/
theorem embed_refresh_iff_notable_change (l : Listing) (s : Snapshot) (t : Int) (cf ef : Bool) :
    (updateEbayListing l (some s) t cf ef).effects.embedRefreshed =
      ((l.currentPrice != s.currentPrice || l.bidCount != s.bidCount ||
          (l.status == "active" && s.status == "ended")) && cf && ef) := by
  simp only [updateEbayListing]
  cases hc : (l.currentPrice != s.currentPrice || l.bidCount != s.bidCount ||
      (l.status == "active" && s.status == "ended")) <;>
    cases cf <;> simp [Effects.empty]

/-- A string starting with a non-empty string is non-empty. -/
lemma str_append_ne_empty (a b : String) (h : a ≠ "") : a ++ b ≠ "" := by
  intro hc
  apply h
  have hd := congrArg String.data hc
  rw [String.data_append, show ("" : String).data = [] from rfl] at hd
  exact String.ext (List.append_eq_nil.mp hd).1

/-- The ended-case message is never the empty string. -/
lemma endedNotice_ne_empty (s : Snapshot) : endedNotice s ≠ "" := by
  unfold endedNotice
  apply str_append_ne_empty
  apply str_append_ne_empty
  apply str_append_ne_empty
  decide

/-- The updated-case message is never the empty string. -/
lemma updatedNotice_ne_empty (oldPrice : String) (oldBidCount : Nat) (s : Snapshot) :
    updatedNotice oldPrice oldBidCount s ≠ "" := by
  unfold updatedNotice
  apply str_append_ne_empty
  apply str_append_ne_empty
  apply str_append_ne_empty
  apply str_append_ne_empty
  apply str_append_ne_empty
  apply str_append_ne_empty
  apply str_append_ne_empty
  decide

/-- C6: on a completed fetch whose channel is found, the posted
notifications are exactly: the ended-form message when
`justEnded = (oldStatus = active ∧ newStatus = ended)`, otherwise the
updated-form (`old → new`) message when the price string or the bid count
changed, otherwise nothing; hence exactly one notification is posted iff
`priceChanged ∨ bidCountChanged ∨ justEnded`. -/
theorem notification_iff_notable_change (l : Listing) (s : Snapshot) (t : Int) (ef : Bool) :
    (updateEbayListing l (some s) t true ef).effects.notifications =
        (if l.status == "active" && s.status == "ended" then [endedNotice s]
         else if l.currentPrice != s.currentPrice || l.bidCount != s.bidCount then
           [updatedNotice l.currentPrice l.bidCount s]
         else []) ∧
      ((updateEbayListing l (some s) t true ef).effects.notifications.length = 1 ↔
        (l.currentPrice ≠ s.currentPrice ∨ l.bidCount ≠ s.bidCount ∨
          (l.status = "active" ∧ s.status = "ended"))) := by
  have hend : (endedNotice s != "") = true :=
    bne_iff_ne.mpr (endedNotice_ne_empty s)
  have hupd : (updatedNotice l.currentPrice l.bidCount s != "") = true :=
    bne_iff_ne.mpr (updatedNotice_ne_empty l.currentPrice l.bidCount s)
  constructor
  · simp only [updateEbayListing]
    cases hj : (l.status == "active" && s.status == "ended") <;>
      cases hp : (l.currentPrice != s.currentPrice) <;>
        cases hb : (l.bidCount != s.bidCount) <;>
          simp [hend, hupd, Effects.empty]
  · simp only [updateEbayListing]
    cases hj : (l.status == "active" && s.status == "ended") <;>
      cases hp : (l.currentPrice != s.currentPrice) <;>
        cases hb : (l.bidCount != s.bidCount) <;>
          simp_all [Effects.empty, bne_iff_ne, Bool.and_eq_true, beq_iff_eq]

/-- C7 counterexample: the snapshot reports `listingType =
"auction_with_bin"` with a Buy-It-Now price, but the saved record keeps
the stored `"auction"` and `none`: the assignment block of
`updateEbayListing` never copies `listingType` or `buyItNowPrice`, so the
claim clause "every field ... including listingType and buyItNowPrice" fails. -/
theorem merge_drops_listingType_and_binPrice :
    (updateEbayListing sampleListing (some sampleBinSnapshot) 1700000000000 true true).saved
        = true ∧
      (updateEbayListing sampleListing (some sampleBinSnapshot) 1700000000000 true
          true).listing.listingType = "auction" ∧
      (updateEbayListing sampleListing (some sampleBinSnapshot) 1700000000000 true
          true).listing.buyItNowPrice = none := by
  decide

/-- C7 amended: a successful fetch saves a record whose `title`,
`currentPrice`, `bidCount`, `endTime`, `imageUrl`, `description`, `views`,
`watchers`, `status` and `source` come from the snapshot, whose `url`,
`ownerId`, `createdAt` — and also `listingType` and `buyItNowPrice`, which
the merge never copies — keep their stored values, and whose `lastChecked`
is the fetch completion time; a record the tick does not fetch is stored
back entirely unchanged (in particular its `lastChecked`). -/
theorem merge_overwrites_snapshot_fields_only (l : Listing) (s : Snapshot) (t : Int)
    (cf ef : Bool) (l2 : Listing) (now2 : Int) (fr2 : Option Snapshot) (cf2 ef2 : Bool)
    (h : (processListing now2 fr2 cf2 ef2 l2).fetchCount = 0) :
    (updateEbayListing l (some s) t cf ef).saved = true ∧
      (updateEbayListing l (some s) t cf ef).listing =
        { url := l.url, ownerId := l.ownerId, title := s.title, currentPrice := s.currentPrice,
          bidCount := s.bidCount, endTime := s.endTime, imageUrl := s.imageUrl,
          description := s.description, views := s.views, watchers := s.watchers,
          status := s.status, source := s.source, listingType := l.listingType,
          buyItNowPrice := l.buyItNowPrice, lastChecked := some t, createdAt := l.createdAt } ∧
      (processListing now2 fr2 cf2 ef2 l2).stored = l2 := by
  refine ⟨rfl, rfl, ?_⟩
  cases hterm : terminalStatuses.contains l2.status
  · have hmem : l2.status ∉ terminalStatuses := by simpa using hterm
    rcases hint : getUpdateIntervalMs l2.endTime now2 with _ | i
    · exfalso
      simp [processListing, hmem, hint] at h
    · by_cases hdue : now2 - (l2.lastChecked.getD 0) ≥ i
      · exfalso
        simp [processListing, hmem, hint, hdue] at h
      · simp [processListing, hmem, hint, hdue]
  · simp only [processListing, hterm, ite_true]

/-- Witness for C7 at a concrete listing, snapshot and skipped (sold)
record. -/
theorem merge_overwrites_snapshot_fields_only_witness :
    (processListing 1700000000000 none true true sampleSoldListing).fetchCount = 0 ∧
      ((updateEbayListing sampleListing (some sampleBinSnapshot) 1700000000000 true
            true).saved = true ∧
        (updateEbayListing sampleListing (some sampleBinSnapshot) 1700000000000 true
            true).listing =
          { url := sampleListing.url, ownerId := sampleListing.ownerId,
            title := sampleBinSnapshot.title, currentPrice := sampleBinSnapshot.currentPrice,
            bidCount := sampleBinSnapshot.bidCount, endTime := sampleBinSnapshot.endTime,
            imageUrl := sampleBinSnapshot.imageUrl,
            description := sampleBinSnapshot.description, views := sampleBinSnapshot.views,
            watchers := sampleBinSnapshot.watchers, status := sampleBinSnapshot.status,
            source := sampleBinSnapshot.source, listingType := sampleListing.listingType,
            buyItNowPrice := sampleListing.buyItNowPrice, lastChecked := some 1700000000000,
            createdAt := sampleListing.createdAt } ∧
        (processListing 1700000000000 none true true sampleSoldListing).stored =
          sampleSoldListing) :=
  ⟨by decide,
    merge_overwrites_snapshot_fields_only sampleListing sampleBinSnapshot 1700000000000 true
      true sampleSoldListing 1700000000000 none true true (by decide)⟩

/-- Looking a key up after a value-only map over an association list. -/
lemma lookup_map_snd {β γ : Type} (f : β → γ) (xs : List (String × β)) (a : String) :
    (xs.map (fun e => (e.1, f e.2))).lookup a = (xs.lookup a).map f := by
  induction xs with
  | nil => rfl
  | cons x xs ih =>
    obtain ⟨k, v⟩ := x
    cases hx : a == k <;> simp [List.lookup, hx, ih]

/-- The per-record outcome of a tick, looked up by channel id: each record is
processed independently of all others in the store. -/
lemma tick_lookup (now : Int) (fetch : String → Option Snapshot) (cf ef : String → Bool)
    (store : List (String × Listing)) (a : String) :
    (tick now fetch cf ef store).lookup a =
      (store.lookup a).map (fun l => processListing now (fetch l.url) (cf a) (ef a) l) := by
  induction store with
  | nil => rfl
  | cons x xs ih =>
    obtain ⟨k, v⟩ := x
    cases hx : a == k
    · simpa [tick, List.lookup, hx] using ih
    · have hk : a = k := eq_of_beq hx
      subst hk
      simp [tick, List.lookup]

/-- A record whose fetch throws is left exactly as it was: the `catch` in
`updateEbayListing` returns before any merge or save. -/
lemma processListing_fetchFail_stored (now : Int) (cf ef : Bool) (l : Listing) :
    (processListing now none cf ef l).stored = l := by
  cases hterm : terminalStatuses.contains l.status
  · have hmem : l.status ∉ terminalStatuses := by simpa using hterm
    rcases hint : getUpdateIntervalMs l.endTime now with _ | i
    · simp [processListing, hmem, hint, updateEbayListing]
    · by_cases hdue : now - (l.lastChecked.getD 0) ≥ i
      · simp [processListing, hmem, hint, hdue, updateEbayListing]
      · simp [processListing, hmem, hint, hdue]
  · simp only [processListing, hterm, ite_true]

/-- A non-terminal, due record whose fetch succeeds is stored merged. -/
lemma processListing_success_due (now : Int) (cf ef : Bool) (l : Listing) (s : Snapshot)
    (i : Int) (hterm : terminalStatuses.contains l.status = false)
    (hint : getUpdateIntervalMs l.endTime now = some i)
    (hdue : now - (l.lastChecked.getD 0) ≥ i) :
    (processListing now (some s) cf ef l).stored = mergeSnapshot l s now ∧
      (processListing now (some s) cf ef l).fetchCount = 1 := by
  have hmem : l.status ∉ terminalStatuses := by simpa using hterm
  constructor <;> simp [processListing, hmem, hint, hdue, updateEbayListing, mergeSnapshot]

/-- C8: within one tick, if the fetch for record `a` throws while record `b` is
non-terminal, due and fetched successfully, then after the tick the store
holds the record of `a` byte-for-byte unchanged and the record of `b` fully merged
with the new `lastChecked`; `b` was fetched exactly once.  (`tick`
processes every entry of the store, so a failure at `a` cannot prevent `b`,
earlier or later in the scan, from being processed.) -/
theorem tick_fetch_failure_isolation (now : Int) (fetch : String → Option Snapshot)
    (cf ef : String → Bool) (store : List (String × Listing)) (a b : String)
    (lA lB : Listing) (snap : Snapshot) (i : Int)
    (ha : store.lookup a = some lA) (hb : store.lookup b = some lB)
    (hfa : fetch lA.url = none) (hfb : fetch lB.url = some snap)
    (hterm : terminalStatuses.contains lB.status = false)
    (hint : getUpdateIntervalMs lB.endTime now = some i)
    (hdue : now - (lB.lastChecked.getD 0) ≥ i) :
    (tickStore now fetch cf ef store).lookup a = some lA ∧
      (tickStore now fetch cf ef store).lookup b = some (mergeSnapshot lB snap now) ∧
      ((tick now fetch cf ef store).lookup b).map TickRecordResult.fetchCount = some 1 := by
  have hsucc := processListing_success_due now (cf b) (ef b) lB snap i hterm hint hdue
  refine ⟨?_, ?_, ?_⟩
  · rw [tickStore, lookup_map_snd, tick_lookup, ha]
    simp [hfa, processListing_fetchFail_stored]
  · rw [tickStore, lookup_map_snd, tick_lookup, hb]
    simp [hfb, hsucc.1]
  · rw [tick_lookup, hb]
    simp [hfb, hsucc.2]

/-- Witness for C8 on a concrete two-record store where the `chanA` fetch
throws and the `chanB` fetch succeeds. -/
theorem tick_fetch_failure_isolation_witness :
    sampleFetch sampleListing.url = none ∧
      sampleFetch sampleDueListing.url = some sampleStaleSnapshot ∧
      ((tickStore 1700000000000 sampleFetch (fun _ => true) (fun _ => true)
              [("chanA", sampleListing), ("chanB", sampleDueListing)]).lookup "chanA" =
            some sampleListing ∧
        (tickStore 1700000000000 sampleFetch (fun _ => true) (fun _ => true)
              [("chanA", sampleListing), ("chanB", sampleDueListing)]).lookup "chanB" =
            some (mergeSnapshot sampleDueListing sampleStaleSnapshot 1700000000000) ∧
        ((tick 1700000000000 sampleFetch (fun _ => true) (fun _ => true)
                [("chanA", sampleListing), ("chanB", sampleDueListing)]).lookup "chanB").map
            TickRecordResult.fetchCount = some 1) :=
  ⟨by decide, by decide,
    tick_fetch_failure_isolation 1700000000000 sampleFetch (fun _ => true) (fun _ => true)
      [("chanA", sampleListing), ("chanB", sampleDueListing)] "chanA" "chanB" sampleListing
      sampleDueListing sampleStaleSnapshot 1800000 (by decide) (by decide) (by decide)
      (by decide) (by decide) (by decide) (by decide)⟩

/-- Every finite interval the policy returns is at most 30 minutes. -/
lemma getUpdateIntervalMs_le_30min (e : Option Int) (now i : Int)
    (h : getUpdateIntervalMs e now = some i) : i ≤ 30 * 60 * 1000 := by
  rcases e with _ | t
  · simp only [getUpdateIntervalMs, Option.some_inj] at h
    omega
  · simp only [getUpdateIntervalMs] at h
    split_ifs at h <;> simp only [Option.some_inj] at h <;> omega

/-- C10: a non-terminal record whose `lastChecked` is missing or `0` is
treated as never checked (`listing.lastChecked || 0` yields elapsed time
`now − 0`), so whenever the policy returns a finite interval — always at
most 30 minutes — any tick at a clock past 30 minutes from the epoch
fetches it. -/
theorem never_checked_record_is_due (l : Listing) (now : Int) (fr : Option Snapshot)
    (cf ef : Bool) (i : Int) (hterm : terminalStatuses.contains l.status = false)
    (hlc : l.lastChecked = none ∨ l.lastChecked = some 0)
    (hint : getUpdateIntervalMs l.endTime now = some i)
    (hnow : 30 * 60 * 1000 ≤ now) :
    (processListing now fr cf ef l).fetchCount = 1 := by
  have hmem : l.status ∉ terminalStatuses := by simpa using hterm
  have hi := getUpdateIntervalMs_le_30min l.endTime now i hint
  have h0 : l.lastChecked.getD 0 = 0 := by
    rcases hlc with h | h <;> simp [h]
  have hdue : now - (l.lastChecked.getD 0) ≥ i := by
    rw [h0]
    omega
  simp [processListing, hmem, hint, hdue]

/-- Witness for C10 at a concrete never-checked record. -/
theorem never_checked_record_is_due_witness :
    terminalStatuses.contains sampleNeverCheckedListing.status = false ∧
      sampleNeverCheckedListing.lastChecked = none ∧
      getUpdateIntervalMs sampleNeverCheckedListing.endTime 1700000000000 =
        some (30 * 60 * 1000) ∧
      (30 * 60 * 1000 : Int) ≤ 1700000000000 ∧
      (processListing 1700000000000 (some sampleStaleSnapshot) true true
          sampleNeverCheckedListing).fetchCount = 1 :=
  ⟨by decide, rfl, by decide, by decide,
    never_checked_record_is_due sampleNeverCheckedListing 1700000000000
      (some sampleStaleSnapshot) true true (30 * 60 * 1000) (by decide) (Or.inl rfl)
      (by decide) (by decide)⟩
